import Mathlib

/-!
Verification of the media-management subsystem of a social-network backend.

The definitions below are a shallow embedding of
`social_network/apps/media_management/{models.py, services.py, views.py}`:

* time is abstract (`Nat` ticks; for the cleanup sweeper one tick = one day,
  matching the `days_old` granularity of `cleanup_orphaned_media`);
* the database tables `media_files` and `media_processing_queue` are lists of
  records inside an explicit `UploadState`;
* Python exceptions become `Except String`;
* effects whose outcome depends on the outside world (storage deletes,
  per-size thumbnail encoding, the dispatch handlers of the worker) are
  parameters of the embedded functions, so that every behaviour the Python
  code can exhibit corresponds to an instantiation of those parameters.
-/

namespace SocialNetwork.Media

/-- `MediaProcessingQueue.STATUS_CHOICES` (models.py). -/
inductive TaskStatus
  | pending
  | processing
  | completed
  | failed
deriving DecidableEq, Repr

/-- `MediaProcessingQueue.TASK_TYPES` (models.py). -/
inductive TaskType
  | thumbnailGeneration
  | videoCompression
  | imageOptimization
  | metadataExtraction
deriving DecidableEq, Repr

/-- `MediaService.MAX_IMAGE_SIZE = 10 * 1024 * 1024` (services.py). -/
def MAX_IMAGE_SIZE : Nat := 10 * 1024 * 1024

/-- `MediaService.MAX_VIDEO_SIZE = 100 * 1024 * 1024` (services.py). -/
def MAX_VIDEO_SIZE : Nat := 100 * 1024 * 1024

/-- `MediaService.ALLOWED_IMAGE_TYPES` (services.py). -/
def ALLOWED_IMAGE_TYPES : List String :=
  ["image/jpeg", "image/png", "image/gif", "image/webp"]

/-- `MediaService.ALLOWED_VIDEO_TYPES` (services.py). -/
def ALLOWED_VIDEO_TYPES : List String :=
  ["video/mp4", "video/webm", "video/quicktime", "video/avi"]

/-- Python `mime_type in allowed` where `mime_type` may be `None`
(`mimetypes.guess_type` returns `None` for unrecognizable names, and
`None in allowed` is `False`). -/
def mimeIn (mime : Option String) (allowed : List String) : Bool :=
  match mime with
  | some m => allowed.contains m
  | none => false

/-- `MediaService._detect_media_type` (services.py 79-91).  The argument is
the guessed MIME type `mimetypes.guess_type(file.name)[0]`. -/
def detect_media_type (mime : Option String) : String :=
  if mimeIn mime ALLOWED_IMAGE_TYPES then "image"
  else if mimeIn mime ALLOWED_VIDEO_TYPES then "video"
  else if mime = some "image/gif" then "gif"
  else "image"

/-- An uploaded file as far as validation is concerned: its guessed MIME type
and its byte size. -/
structure FileUpload where
  mime : Option String
  size : Nat
deriving DecidableEq, Repr

/-- `MediaService._validate_file` (services.py 93-110): the four sequential
checks, the first failing one raising `ValidationError`. -/
def validate_file (f : FileUpload) (mediaType : String) : Except String Unit :=
  if mediaType = "image" && decide (MAX_IMAGE_SIZE < f.size) then
    .error "La taille de l image ne peut pas depasser 10MB."
  else if mediaType = "video" && decide (MAX_VIDEO_SIZE < f.size) then
    .error "La taille de la video ne peut pas depasser 100MB."
  else if mediaType = "image" && !mimeIn f.mime ALLOWED_IMAGE_TYPES then
    .error "Format d image non supporte."
  else if mediaType = "video" && !mimeIn f.mime ALLOWED_VIDEO_TYPES then
    .error "Format de video non supporte."
  else
    .ok ()

/-- A `media_files` row (models.py `MediaFile`), restricted to the fields the
upload path writes. -/
structure MediaFileRec where
  id : Nat
  uploadedBy : Nat
  mediaType : String
  usageType : String
  fileSize : Nat
  mimeType : String
  createdAt : Nat
deriving DecidableEq, Repr

/-- A `media_processing_queue` row (models.py `MediaProcessingQueue`) with the
model's field defaults (`status='pending'`, `progress=0`, `attempts=0`,
`max_attempts=3`). -/
structure QueueTask where
  id : Nat
  mediaFile : Nat
  taskType : TaskType
  status : TaskStatus := .pending
  progress : Nat := 0
  errorMessage : String := ""
  priority : Nat := 5
  attempts : Nat := 0
  maxAttempts : Nat := 3
  createdAt : Nat
  startedAt : Option Nat := none
  completedAt : Option Nat := none
deriving DecidableEq, Repr

/-- The two persisted tables touched by `upload_media`, plus fresh-id
counters standing for the primary-key sequences. -/
structure UploadState where
  nextMediaId : Nat
  nextTaskId : Nat
  mediaFiles : List MediaFileRec
  queue : List QueueTask
deriving DecidableEq, Repr

/-- The task types enqueued per media type in `_queue_processing_tasks`
(services.py 420-438). -/
def task_types_for (mediaType : String) : List TaskType :=
  if mediaType = "image" then [.thumbnailGeneration, .imageOptimization]
  else if mediaType = "video" then
    [.thumbnailGeneration, .videoCompression, .metadataExtraction]
  else []

/-- `priority=7 if task_type == 'thumbnail_generation' else 5`
(services.py 437). -/
def task_priority (t : TaskType) : Nat :=
  if t = .thumbnailGeneration then 7 else 5

/-- The creation loop of `_queue_processing_tasks`: one `pending` row with
default `attempts = 0` per task type, consecutive fresh ids. -/
def build_rows (now mediaId : Nat) : List TaskType → Nat → List QueueTask
  | [], _ => []
  | tt :: rest, nid =>
      { id := nid, mediaFile := mediaId, taskType := tt,
        priority := task_priority tt, createdAt := now }
        :: build_rows now mediaId rest (nid + 1)

/-- `_queue_processing_tasks` (services.py 420-438). -/
def queue_processing_tasks (now mediaId nextTaskId : Nat) (mediaType : String) :
    List QueueTask :=
  build_rows now mediaId (task_types_for mediaType) nextTaskId

/-- `MediaService.upload_media` (services.py 32-77): detect the media type,
validate (raising before anything is persisted), create the `MediaFile` row,
then enqueue the processing tasks.  Returns the new state and the id of the
created `MediaFile`. -/
def upload_media (now : Nat) (st : UploadState) (user : Nat) (f : FileUpload)
    (usageType : String) : Except String (UploadState × Nat) :=
  let mediaType := detect_media_type f.mime
  match validate_file f mediaType with
  | .error e => .error e
  | .ok _ =>
      let mid := st.nextMediaId
      let media : MediaFileRec :=
        { id := mid, uploadedBy := user, mediaType := mediaType,
          usageType := usageType, fileSize := f.size,
          mimeType := (f.mime.getD ""), createdAt := now }
      let rows := queue_processing_tasks now mid st.nextTaskId mediaType
      .ok ({ nextMediaId := mid + 1,
             nextTaskId := st.nextTaskId + rows.length,
             mediaFiles := st.mediaFiles ++ [media],
             queue := st.queue ++ rows }, mid)

/-- The state the database is left in by a call to `upload_media`: a raised
`ValidationError` occurs before any write, so the error branch leaves the
state untouched. -/
def upload_media_result_state (now : Nat) (st : UploadState) (user : Nat)
    (f : FileUpload) (usageType : String) : UploadState :=
  match upload_media now st user f usageType with
  | .ok (st', _) => st'
  | .error _ => st

/-! ## ProcessingWorker (services.py `MediaProcessor`) -/

/-- The first block of `MediaProcessor.process_task` (services.py 170-173):
claiming a task sets `status='processing'`, stamps `started_at` and
increments `attempts`, and this first save happens before any handler runs. -/
def claim_task (now : Nat) (t : QueueTask) : QueueTask :=
  { t with status := .processing, startedAt := some now,
           attempts := t.attempts + 1 }

/-- `MediaProcessor.process_task` (services.py 166-200).  The dispatch on
`task_type` and everything else that can go wrong inside the `try` block is
abstracted by `outcome`, mapping the task type and the media-file id to either
a success boolean (the handler returned) or a raised exception message (the
`except` branch).  In every case the function returns: the `except` branch
records the failure on the row instead of re-raising. -/
def process_task (outcome : TaskType → Nat → Except String Bool) (now : Nat)
    (t : QueueTask) : QueueTask :=
  let claimed := claim_task now t
  match outcome t.taskType t.mediaFile with
  | .ok true =>
      { claimed with status := .completed, completedAt := some now,
                     progress := 100 }
  | .ok false =>
      { claimed with status := .failed, errorMessage := "Echec du traitement" }
  | .error e =>
      { claimed with status := .failed, errorMessage := e }

/-- Django `order_by('-priority', 'created_at')` as a total Boolean
"comes no later than" relation: higher priority first, then earlier
`created_at`. -/
def task_order (a b : QueueTask) : Bool :=
  decide (b.priority < a.priority
    ∨ (a.priority = b.priority ∧ a.createdAt ≤ b.createdAt))

/-- `task_order` as a decidable relation, for sorting. -/
def TaskLE (a b : QueueTask) : Prop := task_order a b = true

instance : DecidableRel TaskLE :=
  fun a b => inferInstanceAs (Decidable (task_order a b = true))

/-- The queryset of `process_pending_tasks` (services.py 159-161):
`filter(status='pending').order_by('-priority', 'created_at')[:limit]`. -/
def select_pending (limit : Nat) (queue : List QueueTask) : List QueueTask :=
  (((queue.filter (fun t => t.status = .pending)).insertionSort TaskLE).take
    limit)

/-- `MediaProcessor.process_pending_tasks` (services.py 156-164): each
selected task is processed by `process_task`; since `process_task` catches
exceptions instead of re-raising them, every selected task of the batch is
processed.  Returns the processed batch. -/
def process_pending_tasks (outcome : TaskType → Nat → Except String Bool)
    (now limit : Nat) (queue : List QueueTask) : List QueueTask :=
  (select_pending limit queue).map (process_task outcome now)

/-- `MediaProcessingQueue.can_retry` (models.py 277-280). -/
def can_retry (t : QueueTask) : Bool :=
  decide (t.status = .failed) && decide (t.attempts < t.maxAttempts)

/-- Modelled from the spec: the repository defines the `can_retry` gate
(models.py 277-280) but contains no caller that performs the retry itself;
spec section 4.4 states that `failed → pending` happens only via an explicit
retry gated on `attempts < max_attempts`.  The retry resets the row to
`pending` exactly when `can_retry` holds and otherwise leaves it unchanged. -/
def retry_task (t : QueueTask) : QueueTask :=
  if can_retry t then { t with status := .pending } else t

/-- `MediaCleanupService.cleanup_failed_processing_tasks`
(services.py 325-339): delete the `failed` rows created before the cutoff;
returns the surviving queue. -/
def cleanup_failed_processing_tasks (cutoff : Nat) (queue : List QueueTask) :
    List QueueTask :=
  queue.filter
    (fun t => !(decide (t.status = .failed) && decide (t.createdAt < cutoff)))

/-! ## Cleanup sweeper and deletion (services.py, views.py) -/

/-- A stored `MediaFile` as seen by the cleanup sweeper and the deletion
path: the ORM-queryable facts the code tests (`post_relations__isnull`,
`uploaded_by__avatar__isnull`, `uploaded_by__banner__isnull`) together with
the semantic facts the views test (`uploaded_by.avatar == file`,
`uploaded_by.banner == file`). -/
structure StoredMedia where
  id : Nat
  uploadedBy : Nat
  createdAt : Nat
  hasPostRelations : Bool
  ownerAvatarIsNull : Bool
  ownerBannerIsNull : Bool
  isOwnersAvatar : Bool
  isOwnersBanner : Bool
deriving DecidableEq, Repr

/-- The orphan queryset filter of `cleanup_orphaned_media`
(services.py 298-303): `created_at__lt=cutoff_date`,
`post_relations__isnull=True`, `uploaded_by__avatar__isnull=True`,
`uploaded_by__banner__isnull=True`. -/
def orphan_filter (cutoff : Nat) (m : StoredMedia) : Bool :=
  decide (m.createdAt < cutoff) && !m.hasPostRelations
    && m.ownerAvatarIsNull && m.ownerBannerIsNull

/-- The orphan condition as the spec words it (sections 4.6 and 8): no post
attachment, not used as the owner's avatar, not used as the owner's banner,
older than the cutoff.  Stated for refinement comparison with
`orphan_filter`, which is what the code actually runs. -/
def spec_orphan (cutoff : Nat) (m : StoredMedia) : Bool :=
  decide (m.createdAt < cutoff) && !m.hasPostRelations
    && !m.isOwnersAvatar && !m.isOwnersBanner

/-- `MediaCleanupService.cleanup_orphaned_media` (services.py 289-323).
Time is counted in days, so `cutoff = now - days_old`.  `deleteOk` abstracts
whether the storage/database deletion of a given media id succeeds; a failing
item is caught, logged and left in place, and the sweep continues.  Returns
`deleted_count` and the surviving rows. -/
def cleanup_orphaned_media (now daysOld : Nat) (deleteOk : Nat → Bool)
    (media : List StoredMedia) : Nat × List StoredMedia :=
  let cutoff := now - daysOld
  ((media.filter (fun m => orphan_filter cutoff m && deleteOk m.id)).length,
   media.filter (fun m => !(orphan_filter cutoff m && deleteOk m.id)))

/-- An authenticated requester (`request.user`): id plus `is_staff`. -/
structure Requester where
  id : Nat
  isStaff : Bool
deriving DecidableEq, Repr

/-- `MediaService.delete_media` (services.py 574-608): refuses any requester
other than the uploader, then attempts the storage and database deletions,
returning whether they succeeded (`storageOk` abstracts the `try` block). -/
def delete_media (storageOk : Bool) (m : StoredMedia) (u : Requester) : Bool :=
  if m.uploadedBy ≠ u.id then false
  else storageOk

/-- `MediaFileViewSet._is_media_in_use` (views.py 112-118). -/
def is_media_in_use (m : StoredMedia) : Bool :=
  m.hasPostRelations || m.isOwnersAvatar || m.isOwnersBanner

/-- The HTTP outcomes of `MediaFileViewSet.destroy`. -/
inductive DestroyResult
  | forbidden
  | badRequestInUse
  | noContent
  | serverError
deriving DecidableEq, Repr

/-- `MediaFileViewSet.destroy` (views.py 83-110): permission check
(uploader or staff), in-use check, then `MediaService.delete_media`. -/
def destroy (storageOk : Bool) (m : StoredMedia) (u : Requester) :
    DestroyResult :=
  if decide (m.uploadedBy ≠ u.id) && !u.isStaff then .forbidden
  else if is_media_in_use m then .badRequestInUse
  else if delete_media storageOk m u then .noContent
  else .serverError

/-! ## Thumbnail generation (services.py) -/

/-- `MediaService.THUMBNAIL_SIZES` keys (services.py 26-30). -/
inductive ThumbSize
  | small
  | medium
  | large
deriving DecidableEq, Repr

/-- The iteration order of `THUMBNAIL_SIZES.items()`. -/
def THUMBNAIL_SIZES : List ThumbSize := [.small, .medium, .large]

/-- A produced `MediaThumbnail` row (models.py), reduced to the fields the
generation loop writes. -/
structure Thumb where
  size : ThumbSize
  width : Nat
  height : Nat
deriving DecidableEq, Repr

/-- The per-size loop of `_generate_image_thumbnails` /
`_generate_video_thumbnails` (services.py 462-572): each size either yields a
thumbnail or raises; the surrounding `except` stops the loop but the
thumbnails already accumulated are returned. -/
def gen_thumbs_loop (f : ThumbSize → Except String Thumb) :
    List ThumbSize → List Thumb
  | [] => []
  | s :: rest =>
      match f s with
      | .ok t => t :: gen_thumbs_loop f rest
      | .error _ => []

/-- `MediaService.generate_thumbnails` (services.py 440-460): media types
other than image/video return the empty list immediately; for video, the
1-second frame extraction (`frameOk`) must succeed before the same three-size
loop runs on the extracted frame. -/
def generate_thumbnails (mediaType : String) (frameOk : Bool)
    (f : ThumbSize → Except String Thumb) : List Thumb :=
  if mediaType ≠ "image" && mediaType ≠ "video" then []
  else if mediaType = "image" then gen_thumbs_loop f THUMBNAIL_SIZES
  else if frameOk then gen_thumbs_loop f THUMBNAIL_SIZES
  else []

/-- `MediaProcessor._process_thumbnail_generation` (services.py 202-211):
the task succeeds exactly when `len(thumbnails) > 0`. -/
def process_thumbnail_generation (mediaType : String) (frameOk : Bool)
    (f : ThumbSize → Except String Thumb) : Bool :=
  decide (0 < (generate_thumbnails mediaType frameOk f).length)

/-! ## Concrete fixtures used by the witnesses -/

/-- An empty database state. -/
def demoState : UploadState :=
  { nextMediaId := 0, nextTaskId := 0, mediaFiles := [], queue := [] }

/-- A 1000-byte PNG upload. -/
def demoImageFile : FileUpload := { mime := some "image/png", size := 1000 }

/-- An MP4 upload one byte over the 100 MiB ceiling. -/
def demoVideoFile : FileUpload :=
  { mime := some "video/mp4", size := MAX_VIDEO_SIZE + 1 }

/-- The state after uploading `demoImageFile` into `demoState`. -/
def demoUploadedState : UploadState :=
  upload_media_result_state 5 demoState 1 demoImageFile "post"

/-- A pending thumbnail task: highest priority, earliest `created_at`. -/
def demoPendingTask : QueueTask :=
  { id := 3, mediaFile := 0, taskType := .thumbnailGeneration, priority := 7,
    createdAt := 1 }

/-- A queue mixing priorities, creation times and a failed row. -/
def demoQueue : List QueueTask :=
  [ { id := 1, mediaFile := 0, taskType := .imageOptimization, priority := 5,
      createdAt := 0 },
    { id := 2, mediaFile := 0, taskType := .thumbnailGeneration, priority := 7,
      createdAt := 3 },
    demoPendingTask,
    { id := 4, mediaFile := 0, taskType := .metadataExtraction,
      status := .failed, priority := 9, createdAt := 0 } ]

/-- A dispatch environment where thumbnail generation raises. -/
def demoOutcome : TaskType → Nat → Except String Bool :=
  fun tt _ => if tt = .thumbnailGeneration then .error "boom" else .ok true

/-- A failed row that exhausted its attempts. -/
def demoFailedMaxed : QueueTask :=
  { id := 7, mediaFile := 0, taskType := .imageOptimization, status := .failed,
    attempts := 3, maxAttempts := 3, createdAt := 0 }

/-- A failed row with attempts left. -/
def demoFailedRetryable : QueueTask :=
  { id := 8, mediaFile := 0, taskType := .imageOptimization, status := .failed,
    attempts := 1, maxAttempts := 3, createdAt := 0 }

/-- 8 days old, unreferenced, but its owner has an avatar image set (the
avatar is a different file, so this media is not used as the avatar). -/
def demoAvatarOwnerMedia : StoredMedia :=
  { id := 0, uploadedBy := 1, createdAt := 0, hasPostRelations := false,
    ownerAvatarIsNull := false, ownerBannerIsNull := true,
    isOwnersAvatar := false, isOwnersBanner := false }

/-- 8 days old, unreferenced, owner has neither avatar nor banner. -/
def demoOrphan8d : StoredMedia :=
  { id := 1, uploadedBy := 1, createdAt := 0, hasPostRelations := false,
    ownerAvatarIsNull := true, ownerBannerIsNull := true,
    isOwnersAvatar := false, isOwnersBanner := false }

/-- Like `demoOrphan8d` but only 6 days old at `now = 8`. -/
def demoRecent6d : StoredMedia :=
  { id := 2, uploadedBy := 1, createdAt := 2, hasPostRelations := false,
    ownerAvatarIsNull := true, ownerBannerIsNull := true,
    isOwnersAvatar := false, isOwnersBanner := false }

/-- A second full orphan, used to show the sweep survives one failure. -/
def demoOrphanOther : StoredMedia :=
  { id := 3, uploadedBy := 2, createdAt := 0, hasPostRelations := false,
    ownerAvatarIsNull := true, ownerBannerIsNull := true,
    isOwnersAvatar := false, isOwnersBanner := false }

/-- The uploader of `demoOrphan8d`-style media (`uploadedBy = 1`). -/
def demoOwner : Requester := { id := 1, isStaff := false }

/-- A staff member who did not upload the media. -/
def demoAdmin : Requester := { id := 2, isStaff := true }

/-- A non-staff requester who did not upload the media. -/
def demoStranger : Requester := { id := 3, isStaff := false }

/-- Per-size thumbnail results: small succeeds, medium raises. -/
def demoThumbResults : ThumbSize → Except String Thumb :=
  fun s =>
    match s with
    | .small => .ok { size := .small, width := 100, height := 80 }
    | .medium => .error "decode error"
    | .large => .ok { size := .large, width := 800, height := 640 }

/-! ## Helper lemmas -/

/-- `_detect_media_type` only ever returns image or video: the `gif` branch
is guarded by `mime == 'image/gif'`, which already satisfies the first
branch. -/
theorem detect_media_type_image_or_video (mime : Option String) :
    detect_media_type mime = "image" ∨ detect_media_type mime = "video" := by
  unfold detect_media_type
  split
  · left; rfl
  next h1 =>
    split
    · right; rfl
    next h2 =>
      split
      next h3 =>
        subst h3
        exact absurd (by decide) h1
      · left; rfl

/-- `build_rows` creates one row per task type. -/
theorem build_rows_length (now mediaId : Nat) (tts : List TaskType)
    (nid : Nat) : (build_rows now mediaId tts nid).length = tts.length := by
  induction tts generalizing nid with
  | nil => rfl
  | cons tt rest ih => simp [build_rows, ih]

/-- Every row `build_rows` creates points at the given media file. -/
theorem build_rows_mediaFile (now mediaId : Nat) (tts : List TaskType)
    (nid : Nat) :
    ∀ r ∈ build_rows now mediaId tts nid, r.mediaFile = mediaId := by
  induction tts generalizing nid with
  | nil => intro r hr; cases hr
  | cons tt rest ih =>
    intro r hr
    cases hr with
    | head => rfl
    | tail _ h => exact ih _ r h

/-- `task_order` is transitive. -/
theorem task_order_trans (a b c : QueueTask) :
    task_order a b → task_order b c → task_order a c := by
  simp only [task_order, decide_eq_true_eq]
  omega

/-- `task_order` is total. -/
theorem task_order_total (a b : QueueTask) :
    task_order a b || task_order b a := by
  simp only [task_order, Bool.or_eq_true, decide_eq_true_eq]
  omega

instance : IsTrans QueueTask TaskLE :=
  ⟨fun a b c h1 h2 => task_order_trans a b c h1 h2⟩

instance : IsTotal QueueTask TaskLE :=
  ⟨fun a b => by
    have h := task_order_total a b
    rcases (Bool.or_eq_true _ _).mp h with h1 | h1
    · exact Or.inl h1
    · exact Or.inr h1⟩

/-! ## Claims -/

/-- C1: for every `MediaProcessingQueue` row in status `pending` that the
worker processes, `process_task` transitions it to `processing`, stamps
`started_at` with the current time, and increments `attempts` by exactly 1;
the increment happens on every claim regardless of whether the task
subsequently completes or fails. -/
theorem C1_claim_increments_attempts (now : Nat) (t : QueueTask)
    (_h : t.status = .pending) :
    (claim_task now t).status = .processing
    ∧ (claim_task now t).startedAt = some now
    ∧ (claim_task now t).attempts = t.attempts + 1
    ∧ ∀ outcome : TaskType → Nat → Except String Bool,
        (process_task outcome now t).attempts = t.attempts + 1
        ∧ (process_task outcome now t).startedAt = some now
        ∧ ((process_task outcome now t).status = .completed
            ∨ (process_task outcome now t).status = .failed) := by
  refine ⟨rfl, rfl, rfl, ?_⟩
  intro outcome
  unfold process_task
  cases houtcome : outcome t.taskType t.mediaFile with
  | ok b => cases b <;> simp [claim_task]
  | error e => simp [claim_task]

/-- Witness for C1 at a concrete pending row, once with a succeeding and
once with a raising dispatch. -/
theorem C1_claim_increments_attempts_witness :
    demoPendingTask.status = .pending
    ∧ (claim_task 9 demoPendingTask).status = .processing
    ∧ (claim_task 9 demoPendingTask).startedAt = some 9
    ∧ (claim_task 9 demoPendingTask).attempts = demoPendingTask.attempts + 1
    ∧ (process_task demoOutcome 9 demoPendingTask).attempts
        = demoPendingTask.attempts + 1
    ∧ (process_task (fun _ _ => .ok true) 9 demoPendingTask).attempts
        = demoPendingTask.attempts + 1 :=
  ⟨rfl,
   (C1_claim_increments_attempts 9 demoPendingTask rfl).1,
   (C1_claim_increments_attempts 9 demoPendingTask rfl).2.1,
   (C1_claim_increments_attempts 9 demoPendingTask rfl).2.2.1,
   ((C1_claim_increments_attempts 9 demoPendingTask rfl).2.2.2 demoOutcome).1,
   ((C1_claim_increments_attempts 9 demoPendingTask rfl).2.2.2
     (fun _ _ => .ok true)).1⟩

/-- C9: media type is inferred from the guessed MIME type; any file whose
MIME type is in neither allow-list (including an unrecognizable `None`)
is classified as `image` by `_detect_media_type`. -/
theorem C9_unknown_mime_defaults_to_image (mime : Option String)
    (h1 : mimeIn mime ALLOWED_IMAGE_TYPES = false)
    (h2 : mimeIn mime ALLOWED_VIDEO_TYPES = false) :
    detect_media_type mime = "image" := by
  unfold detect_media_type
  rw [h1, h2]
  simp only [Bool.false_eq_true, if_false]
  split
  next h3 =>
    subst h3
    exact absurd h1 (by decide)
  · rfl

/-- Witness for C9: a PDF MIME type and a missing MIME type both map to
`image`. -/
theorem C9_unknown_mime_defaults_to_image_witness :
    mimeIn (some "application/pdf") ALLOWED_IMAGE_TYPES = false
    ∧ mimeIn (some "application/pdf") ALLOWED_VIDEO_TYPES = false
    ∧ detect_media_type (some "application/pdf") = "image"
    ∧ detect_media_type none = "image" :=
  ⟨by decide, by decide,
   C9_unknown_mime_defaults_to_image (some "application/pdf")
     (by decide) (by decide),
   C9_unknown_mime_defaults_to_image none (by decide) (by decide)⟩

/-- C10: `_detect_media_type` returns only `image` or `video` (never `gif`
or `audio`; its `image/gif` branch is unreachable because `image/gif` is in
the image allow-list), so every `MediaFile` created through `upload_media`
has media type image or video and receives at least two processing-queue
rows. -/
theorem C10_only_image_or_video :
    (∀ mime : Option String,
        (detect_media_type mime = "image" ∨ detect_media_type mime = "video")
        ∧ detect_media_type mime ≠ "gif" ∧ detect_media_type mime ≠ "audio")
    ∧ detect_media_type (some "image/gif") = "image"
    ∧ ∀ (now : Nat) (st : UploadState) (user : Nat) (f : FileUpload)
        (ut : String) (st' : UploadState) (mid : Nat),
        upload_media now st user f ut = .ok (st', mid) →
        ∃ m rows, st'.mediaFiles = st.mediaFiles ++ [m] ∧ m.id = mid
          ∧ (m.mediaType = "image" ∨ m.mediaType = "video")
          ∧ st'.queue = st.queue ++ rows ∧ 2 ≤ rows.length
          ∧ ∀ r ∈ rows, r.mediaFile = mid := by
  refine ⟨?_, by decide, ?_⟩
  · intro mime
    refine ⟨detect_media_type_image_or_video mime, ?_, ?_⟩
    all_goals
      rcases detect_media_type_image_or_video mime with h | h <;>
        simp [h]
  · intro now st user f ut st' mid h
    simp only [upload_media] at h
    cases hv : validate_file f (detect_media_type f.mime) with
    | error e => rw [hv] at h; cases h
    | ok u =>
      rw [hv] at h
      simp only [Except.ok.injEq, Prod.mk.injEq] at h
      obtain ⟨hst, hmid⟩ := h
      refine ⟨{ id := st.nextMediaId, uploadedBy := user,
                mediaType := detect_media_type f.mime, usageType := ut,
                fileSize := f.size, mimeType := f.mime.getD "",
                createdAt := now },
              queue_processing_tasks now st.nextMediaId st.nextTaskId
                (detect_media_type f.mime), ?_, ?_, ?_, ?_, ?_, ?_⟩
      · rw [← hst]
      · rw [← hmid]
      · exact detect_media_type_image_or_video f.mime
      · rw [← hst]
      · unfold queue_processing_tasks
        rw [build_rows_length]
        rcases detect_media_type_image_or_video f.mime with hd | hd <;>
          simp [hd, task_types_for]
      · intro r hr
        rw [← hmid]
        exact build_rows_mediaFile now st.nextMediaId _ st.nextTaskId r hr

/-- Witness for C10 at a concrete image upload. -/
theorem C10_only_image_or_video_witness :
    upload_media 5 demoState 1 demoImageFile "post"
      = .ok (demoUploadedState, 0)
    ∧ ∃ m rows,
        demoUploadedState.mediaFiles = demoState.mediaFiles ++ [m]
        ∧ m.id = 0 ∧ (m.mediaType = "image" ∨ m.mediaType = "video")
        ∧ demoUploadedState.queue = demoState.queue ++ rows
        ∧ 2 ≤ rows.length ∧ ∀ r ∈ rows, r.mediaFile = 0 :=
  ⟨by rfl,
   C10_only_image_or_video.2.2 5 demoState 1 demoImageFile "post"
     demoUploadedState 0 (by rfl)⟩

/-- C2: for every uploaded file classified as video whose byte size exceeds
100 MiB, `upload_media` raises `ValidationError` before any persistence: no
`MediaFile` record and no `MediaProcessingQueue` rows are created, the state
is unchanged. -/
theorem C2_oversize_video_rejected (now user : Nat) (st : UploadState)
    (f : FileUpload) (ut : String)
    (hvid : detect_media_type f.mime = "video")
    (hsize : MAX_VIDEO_SIZE < f.size) :
    (∃ e, upload_media now st user f ut = .error e)
    ∧ upload_media_result_state now st user f ut = st := by
  have hval : validate_file f "video"
      = .error "La taille de la video ne peut pas depasser 100MB." := by
    simp [validate_file, hsize]
  constructor
  · exact ⟨"La taille de la video ne peut pas depasser 100MB.",
      by simp only [upload_media, hvid, hval]⟩
  · simp only [upload_media_result_state, upload_media, hvid, hval]

/-- Witness for C2: a 100 MiB + 1 byte MP4 upload into the empty state is
rejected and the state is unchanged. -/
theorem C2_oversize_video_rejected_witness :
    detect_media_type demoVideoFile.mime = "video"
    ∧ MAX_VIDEO_SIZE < demoVideoFile.size
    ∧ ((∃ e, upload_media 5 demoState 1 demoVideoFile "post" = .error e)
        ∧ upload_media_result_state 5 demoState 1 demoVideoFile "post"
            = demoState) :=
  ⟨by decide, by decide,
   C2_oversize_video_rejected 5 1 demoState demoVideoFile "post"
     (by decide) (by decide)⟩

/-- C3: for every uploaded file of an allowed image MIME type and size at
most 10 MiB, `upload_media` succeeds and creates exactly two
`MediaProcessingQueue` rows for the new `MediaFile`: `thumbnail_generation`
at priority 7 and `image_optimization` at priority 5, both `pending` with
`attempts = 0` (the record defaults). -/
theorem C3_image_upload_two_queue_rows (now user : Nat) (st : UploadState)
    (f : FileUpload) (ut : String)
    (himg : mimeIn f.mime ALLOWED_IMAGE_TYPES = true)
    (hsize : f.size ≤ MAX_IMAGE_SIZE)
    (hfresh : ∀ r ∈ st.queue, r.mediaFile ≠ st.nextMediaId) :
    ∃ st', upload_media now st user f ut = .ok (st', st.nextMediaId)
      ∧ st'.queue.filter (fun r => r.mediaFile = st.nextMediaId) =
          [{ id := st.nextTaskId, mediaFile := st.nextMediaId,
             taskType := .thumbnailGeneration, priority := 7,
             createdAt := now },
           { id := st.nextTaskId + 1, mediaFile := st.nextMediaId,
             taskType := .imageOptimization, priority := 5,
             createdAt := now }]
      ∧ ∀ r ∈ st'.queue.filter (fun r => r.mediaFile = st.nextMediaId),
          r.status = .pending ∧ r.attempts = 0 := by
  have hdet : detect_media_type f.mime = "image" := by
    simp [detect_media_type, himg]
  have hval : validate_file f "image" = .ok () := by
    simp [validate_file, himg, Nat.not_lt.mpr hsize]
  have hup : upload_media now st user f ut = .ok
      ({ nextMediaId := st.nextMediaId + 1,
         nextTaskId := st.nextTaskId + 2,
         mediaFiles := st.mediaFiles ++
           [{ id := st.nextMediaId, uploadedBy := user, mediaType := "image",
              usageType := ut, fileSize := f.size,
              mimeType := f.mime.getD "", createdAt := now }],
         queue := st.queue ++
           [{ id := st.nextTaskId, mediaFile := st.nextMediaId,
              taskType := .thumbnailGeneration, priority := 7,
              createdAt := now },
            { id := st.nextTaskId + 1, mediaFile := st.nextMediaId,
              taskType := .imageOptimization, priority := 5,
              createdAt := now }] },
       st.nextMediaId) := by
    simp [upload_media, hdet, hval, queue_processing_tasks, task_types_for,
      build_rows, task_priority]
  have hnil : st.queue.filter
      (fun r => decide (r.mediaFile = st.nextMediaId)) = [] := by
    rw [List.filter_eq_nil_iff]
    intro a ha
    simpa using hfresh a ha
  refine ⟨_, hup, ?_, ?_⟩
  · simp [List.filter_append, hnil]
  · intro r hr
    rw [List.mem_filter] at hr
    obtain ⟨hrmem, hrp⟩ := hr
    simp only [List.mem_append, List.mem_cons, List.not_mem_nil,
      or_false] at hrmem
    rcases hrmem with hold | h1 | h1
    · exact absurd (by simpa using hrp) (hfresh r hold)
    · subst h1; exact ⟨rfl, rfl⟩
    · subst h1; exact ⟨rfl, rfl⟩

/-- Witness for C3: the concrete PNG upload into the empty state yields
exactly the two expected rows. -/
theorem C3_image_upload_two_queue_rows_witness :
    mimeIn demoImageFile.mime ALLOWED_IMAGE_TYPES = true
    ∧ demoImageFile.size ≤ MAX_IMAGE_SIZE
    ∧ ∃ st', upload_media 5 demoState 1 demoImageFile "post" = .ok (st', 0)
        ∧ st'.queue.filter (fun r => r.mediaFile = 0) =
            [{ id := 0, mediaFile := 0, taskType := .thumbnailGeneration,
               priority := 7, createdAt := 5 },
             { id := 1, mediaFile := 0, taskType := .imageOptimization,
               priority := 5, createdAt := 5 }]
        ∧ ∀ r ∈ st'.queue.filter (fun r => r.mediaFile = 0),
            r.status = .pending ∧ r.attempts = 0 :=
  ⟨by decide, by decide,
   C3_image_upload_two_queue_rows 5 1 demoState demoImageFile "post"
     (by decide) (by decide) (by intro r hr; cases hr)⟩

/-- C4: `process_pending_tasks(limit)` processes at most `limit` rows,
selects only `pending` rows ordered by descending priority then ascending
`created_at`, and processes each selected item independently: an exception
while handling one item is caught by `process_task`, which records status
`failed` with the error message instead of re-raising, so every item of
the batch is processed (the batch is the total map of `process_task` over
the selection). -/
theorem C4_batch_processing (outcome : TaskType → Nat → Except String Bool)
    (now limit : Nat) (queue : List QueueTask) :
    (select_pending limit queue).length ≤ limit
    ∧ (∀ t ∈ select_pending limit queue, t.status = .pending)
    ∧ (select_pending limit queue).Pairwise (fun a b => task_order a b = true)
    ∧ process_pending_tasks outcome now limit queue
        = (select_pending limit queue).map (process_task outcome now)
    ∧ (process_pending_tasks outcome now limit queue).length
        = (select_pending limit queue).length
    ∧ ∀ t ∈ select_pending limit queue, ∀ e,
        outcome t.taskType t.mediaFile = .error e →
        process_task outcome now t
          = { claim_task now t with status := .failed, errorMessage := e } := by
  refine ⟨?_, ?_, ?_, rfl, by simp [process_pending_tasks], ?_⟩
  · simp only [select_pending]
    exact List.length_take_le limit
      ((queue.filter (fun t => t.status = .pending)).insertionSort TaskLE)
  · intro t ht
    simp only [select_pending] at ht
    have h1 := List.mem_of_mem_take ht
    have h2 := (List.mem_insertionSort TaskLE).mp h1
    simpa using List.of_mem_filter h2
  · have hs := List.sorted_insertionSort TaskLE
      (queue.filter (fun t => t.status = .pending))
    exact List.Pairwise.sublist (List.take_sublist _ _) hs
  · intro t _ e he
    simp [process_task, he]

/-- Witness for C4 at the concrete queue: the selection respects the limit,
the raising thumbnail task ends `failed` with its message, and the whole
batch is still the map over the selection. -/
theorem C4_batch_processing_witness :
    (select_pending 2 demoQueue).length ≤ 2
    ∧ demoPendingTask ∈ select_pending 2 demoQueue
    ∧ demoPendingTask.status = .pending
    ∧ process_task demoOutcome 9 demoPendingTask
        = { claim_task 9 demoPendingTask with status := .failed, errorMessage := "boom" }
    ∧ process_pending_tasks demoOutcome 9 2 demoQueue
        = (select_pending 2 demoQueue).map (process_task demoOutcome 9) :=
  ⟨(C4_batch_processing demoOutcome 9 2 demoQueue).1,
   by decide,
   (C4_batch_processing demoOutcome 9 2 demoQueue).2.1 demoPendingTask
     (by decide),
   (C4_batch_processing demoOutcome 9 2 demoQueue).2.2.2.2.2 demoPendingTask
     (by decide) "boom" (by rfl),
   (C4_batch_processing demoOutcome 9 2 demoQueue).2.2.2.1⟩

/-- C5: a `failed` row with `attempts = max_attempts` is never retryable
(`can_retry` is false); the only transition from `failed` back to `pending`
is the explicit retry gated on `attempts < max_attempts`; the worker's
selection never picks up `failed` rows; and the failed-task cleanup only
deletes rows, never transitions them. -/
theorem C5_failed_rows (t : QueueTask) (h : t.status = .failed) :
    (t.maxAttempts ≤ t.attempts → can_retry t = false)
    ∧ (∀ limit queue, t ∉ select_pending limit queue)
    ∧ ((retry_task t).status = .pending ↔ t.attempts < t.maxAttempts)
    ∧ (t.attempts < t.maxAttempts →
        retry_task t = { t with status := .pending })
    ∧ (¬ t.attempts < t.maxAttempts → retry_task t = t)
    ∧ ∀ cutoff queue,
        List.Sublist (cleanup_failed_processing_tasks cutoff queue) queue := by
  refine ⟨?_, ?_, ?_, ?_, ?_, ?_⟩
  · intro hmax
    simp [can_retry, Nat.not_lt.mpr hmax]
  · intro limit queue hmem
    simp only [select_pending] at hmem
    have h1 := List.mem_of_mem_take hmem
    have h2 := (List.mem_insertionSort TaskLE).mp h1
    have h3 := List.of_mem_filter h2
    rw [h] at h3
    simp at h3
  · by_cases hlt : t.attempts < t.maxAttempts
    · have hr : retry_task t = { t with status := .pending } := by
        simp [retry_task, can_retry, h, hlt]
      rw [hr]
      simp [hlt]
    · have hr : retry_task t = t := by
        simp [retry_task, can_retry, h, hlt]
      rw [hr, h]
      simp [hlt]
  · intro hlt
    simp [retry_task, can_retry, h, hlt]
  · intro hlt
    simp [retry_task, can_retry, h, hlt]
  · intro cutoff queue
    exact List.filter_sublist _

/-- Witness for C5: an exhausted failed row is not retryable and never
selected; a failed row with attempts left goes back to `pending` only via
the explicit retry; cleanup only deletes. -/
theorem C5_failed_rows_witness :
    demoFailedMaxed.status = .failed
    ∧ can_retry demoFailedMaxed = false
    ∧ demoFailedMaxed ∉ select_pending 10 demoQueue
    ∧ ((retry_task demoFailedRetryable).status = .pending
        ↔ demoFailedRetryable.attempts < demoFailedRetryable.maxAttempts)
    ∧ retry_task demoFailedRetryable
        = { demoFailedRetryable with status := .pending }
    ∧ List.Sublist (cleanup_failed_processing_tasks 5 demoQueue) demoQueue :=
  ⟨rfl,
   (C5_failed_rows demoFailedMaxed rfl).1 (by decide),
   (C5_failed_rows demoFailedMaxed rfl).2.1 10 demoQueue,
   (C5_failed_rows demoFailedRetryable rfl).2.2.1,
   (C5_failed_rows demoFailedRetryable rfl).2.2.2.1 (by decide),
   (C5_failed_rows demoFailedMaxed rfl).2.2.2.2.2 5 demoQueue⟩

/-- C6: the orphan sweep's queryset tests `uploaded_by__avatar__isnull`
(whether the owner has any avatar at all), not whether this media is used as
the owner's avatar, contradicting both the claim and the code's own inline
comments: at `now = 8` with `days_old = 7`, an 8-day-old media with no post
attachment that is not its owner's avatar or banner is nevertheless retained
because its owner has some (other) avatar image set, while the spec-worded
orphan predicate classifies it as orphaned.  The surrounding behaviour of
the claim does hold: a 6-day-old full orphan is retained, an 8-day-old full
orphan is deleted, and one item's deletion failure does not stop the
sweep. -/
theorem C6_orphan_sweep_avatar_nullness_bug :
    spec_orphan 1 demoAvatarOwnerMedia = true
    ∧ orphan_filter 1 demoAvatarOwnerMedia = false
    ∧ cleanup_orphaned_media 8 7 (fun _ => true) [demoAvatarOwnerMedia]
        = (0, [demoAvatarOwnerMedia])
    ∧ cleanup_orphaned_media 8 7 (fun _ => true) [demoOrphan8d]
        = (1, [])
    ∧ cleanup_orphaned_media 8 7 (fun _ => true) [demoRecent6d]
        = (0, [demoRecent6d])
    ∧ cleanup_orphaned_media 8 7 (fun i => decide (i ≠ 1))
        [demoOrphan8d, demoOrphanOther]
        = (1, [demoOrphan8d]) := by
  decide

/-- C7 counterexample: an administrator who is not the uploader passes the
view's permission and in-use checks, but `MediaService.delete_media` refuses
every requester other than the uploader, so the deletion does not proceed
(the view answers with a server error instead). -/
theorem C7_admin_delete_counterexample :
    demoAdmin.isStaff = true
    ∧ demoOrphan8d.uploadedBy ≠ demoAdmin.id
    ∧ is_media_in_use demoOrphan8d = false
    ∧ delete_media true demoOrphan8d demoAdmin = false
    ∧ destroy true demoOrphan8d demoAdmin = .serverError := by
  decide

/-- C7 (amended): deletion returns a boolean; the view refuses requesters
who are neither the uploader nor staff and refuses media that is referenced
by a post or used as avatar/banner; the service's `delete_media` succeeds
exactly for the uploading owner with a successful storage deletion, so the
owner's deletion proceeds while an administrator who is not the uploader
ends in a server error. -/
theorem C7_deletion_permissions (storageOk : Bool) (m : StoredMedia)
    (u : Requester) :
    (m.uploadedBy ≠ u.id → u.isStaff = false →
      destroy storageOk m u = .forbidden)
    ∧ (delete_media storageOk m u = true ↔
        (m.uploadedBy = u.id ∧ storageOk = true))
    ∧ (m.uploadedBy = u.id → is_media_in_use m = false →
        destroy storageOk m u
          = (if storageOk then .noContent else .serverError))
    ∧ (is_media_in_use m = true → (m.uploadedBy = u.id ∨ u.isStaff = true) →
        destroy storageOk m u = .badRequestInUse)
    ∧ (m.uploadedBy ≠ u.id → u.isStaff = true → is_media_in_use m = false →
        destroy storageOk m u = .serverError) := by
  refine ⟨?_, ?_, ?_, ?_, ?_⟩
  · intro hne hstaff
    simp [destroy, hne, hstaff]
  · constructor
    · intro hdel
      by_cases heq : m.uploadedBy = u.id
      · refine ⟨heq, ?_⟩
        simpa [delete_media, heq] using hdel
      · simp [delete_media, heq] at hdel
    · rintro ⟨heq, hok⟩
      simp [delete_media, heq, hok]
  · intro heq hin
    cases storageOk <;> simp [destroy, delete_media, heq, hin]
  · intro hin hperm
    rcases hperm with heq | hstaff
    · simp [destroy, heq, hin]
    · simp [destroy, hstaff, hin]
  · intro hne hstaff hin
    simp [destroy, delete_media, hne, hstaff, hin]

/-- Witness for C7 (amended) at concrete requesters: a stranger is
forbidden, the owner's delete proceeds, in-use media is refused, and the
admin non-uploader case ends in a server error. -/
theorem C7_deletion_permissions_witness :
    destroy true demoOrphan8d demoStranger = .forbidden
    ∧ (delete_media true demoOrphan8d demoOwner = true ↔
        (demoOrphan8d.uploadedBy = demoOwner.id ∧ True = True))
    ∧ destroy true demoOrphan8d demoOwner = .noContent
    ∧ destroy true demoAvatarOwnerMedia demoAdmin = .serverError :=
  ⟨(C7_deletion_permissions true demoOrphan8d demoStranger).1
      (by decide) (by decide),
   by
     have h := (C7_deletion_permissions true demoOrphan8d demoOwner).2.1
     simpa using h,
   by
     have h := (C7_deletion_permissions true demoOrphan8d demoOwner).2.2.1
       (by decide) (by decide)
     simpa using h,
   (C7_deletion_permissions true demoAvatarOwnerMedia demoAdmin).2.2.2.2
      (by decide) (by decide) (by decide)⟩

/-- C8: `generate_thumbnails` returns an empty list (not an error) for any
media type other than image/video; thumbnail-generation success is recorded
exactly when at least one thumbnail was produced; and thumbnails already
produced before a later size fails are kept. -/
theorem C8_thumbnail_generation (mediaType : String) (frameOk : Bool)
    (f : ThumbSize → Except String Thumb) :
    (mediaType ≠ "image" → mediaType ≠ "video" →
      generate_thumbnails mediaType frameOk f = [])
    ∧ (process_thumbnail_generation mediaType frameOk f = true ↔
        0 < (generate_thumbnails mediaType frameOk f).length)
    ∧ (∀ t e, f .small = .ok t → f .medium = .error e →
        generate_thumbnails "image" frameOk f = [t])
    ∧ (∀ t t2 e, f .small = .ok t → f .medium = .ok t2 →
        f .large = .error e →
        generate_thumbnails "image" frameOk f = [t, t2]) := by
  refine ⟨?_, ?_, ?_, ?_⟩
  · intro h1 h2
    simp [generate_thumbnails, h1, h2]
  · simp [process_thumbnail_generation]
  · intro t e hs hm
    simp [generate_thumbnails, THUMBNAIL_SIZES, gen_thumbs_loop, hs, hm]
  · intro t t2 e hs hm hl
    simp [generate_thumbnails, THUMBNAIL_SIZES, gen_thumbs_loop, hs, hm, hl]

/-- Witness for C8: an audio file yields no thumbnails and no error; with
the small size succeeding and the medium size raising, the small thumbnail
is kept and the task still counts as successful. -/
theorem C8_thumbnail_generation_witness :
    generate_thumbnails "audio" true demoThumbResults = []
    ∧ generate_thumbnails "image" true demoThumbResults
        = [{ size := .small, width := 100, height := 80 }]
    ∧ (process_thumbnail_generation "image" true demoThumbResults = true ↔
        0 < (generate_thumbnails "image" true demoThumbResults).length) :=
  ⟨(C8_thumbnail_generation "audio" true demoThumbResults).1
      (by decide) (by decide),
   (C8_thumbnail_generation "image" true demoThumbResults).2.2.1
      { size := .small, width := 100, height := 80 } "decode error"
      (by rfl) (by rfl),
   (C8_thumbnail_generation "image" true demoThumbResults).2.1⟩

end SocialNetwork.Media
